import Mathlib

/-
Verification of the decoded diagnostic abstraction implemented in
lib/host_context/diagnostic.cc.

The file under verification defines three things:
  - the DecodedDiagnostic constructor taking an error value,
  - the stream-printing operator for DecodedDiagnostic,
  - EmitError, which decodes the execution context's location, builds a
    DecodedDiagnostic, delivers it to the host reachable from the context,
    and returns it.
The surrounding types (DecodedLocation and DecodedDiagnostic field layout,
the opaque location token and its Decode method, the host context and its
sink) are declared in headers outside the file; where their behaviour is
needed it is modelled from the specification, and each such definition says
so in its doc comment.
-/

namespace Tfrt

/-- A resolved source location. Fields are the ones the printing operator in
diagnostic.cc reads: filename, line and column. Line and column are the
unsigned integers of the spec, modelled as Nat. -/
structure DecodedLocation where
  filename : String
  line : Nat
  column : Nat
deriving DecidableEq, Repr

/-- A decoded diagnostic: an optional decoded location paired with a message,
as consumed by the printing operator and produced by EmitError in
diagnostic.cc. -/
structure DecodedDiagnostic where
  location : Option DecodedLocation
  message : String
deriving DecidableEq, Repr

/-- Modelled from the spec: an error value is external to this core and is
consumed only through its stringification, which yields the descriptive
text used as the diagnostic message. -/
structure Error where
  text : String
deriving DecidableEq, Repr

/-- Modelled from the spec: StrCat applied to an error value produces the
error's textual description. -/
def StrCat (e : Error) : String := e.text

/-- The DecodedDiagnostic constructor from diagnostic.cc taking an error
value: the message is StrCat of the error, and the location keeps its
default absent value. -/
def DecodedDiagnostic.ofError (e : Error) : DecodedDiagnostic :=
  { location := none, message := StrCat e }

/-- The stream-printing operator for DecodedDiagnostic from diagnostic.cc,
modelled as appending to the stream contents accumulated so far: when the
location is present it writes the filename, a colon, the line, a colon, the
column and a colon-space, otherwise it writes the UnknownLocation prefix;
it then writes the message. -/
def streamDiag (os : String) (diag : DecodedDiagnostic) : String :=
  let os :=
    match diag.location with
    | some loc =>
        os ++ loc.filename ++ ":" ++ toString loc.line ++ ":" ++
          toString loc.column ++ ": "
    | none => os ++ "UnknownLocation: "
  os ++ diag.message

/-- Rendering a diagnostic to a string: stream it into an empty stream. -/
def format (diag : DecodedDiagnostic) : String := streamDiag "" diag

/-- Modelled from the spec: the opaque location token carried by the
execution context. Its type and Decode method live outside the verified
file; the spec says a token either resolves to a decoded location or fails
to decode, so a token is modelled by its resolution result. -/
structure LocationToken where
  resolved : Option DecodedLocation
deriving DecidableEq, Repr

/-- Modelled from the spec: decoding an optional location token. An absent
token yields none with no side effect; an unresolvable token degrades to
none; a token resolving to a triple yields that triple. This models the
Decode call made by EmitError in diagnostic.cc, whose implementation lives
outside the verified file. -/
def decode : Option LocationToken → Option DecodedLocation
  | none => none
  | some t => t.resolved

/-- Modelled from the spec: the host context reachable from an execution
context, reduced to the part this core touches, its diagnostic sink. The
sink is an external observer whose state is modelled as the list of
diagnostics it has received; none models an unset sink. -/
structure HostContext where
  sink : Option (List DecodedDiagnostic)
deriving DecidableEq, Repr

/-- Modelled from the spec: delivery of one diagnostic by the host. When a
sink is registered the diagnostic is appended to what the sink has
received; when the sink is unset the failure to notify it is tolerated
silently and the host is left as it was. -/
def HostContext.EmitError (host : HostContext) (diag : DecodedDiagnostic) : HostContext :=
  { sink := Option.map (fun received => received ++ [diag]) host.sink }

/-- Host identifiers: host contexts are reached through a pointer held by the
execution context, modelled as an index into a heap of host states. -/
abbrev HostId := Nat

/-- The heap of host states, indexed by host identifier. -/
abbrev World := HostId → HostContext

/-- The execution context as consumed by diagnostic.cc: it exposes its
(possibly absent) location token and the host reachable from it. The
context is passed to EmitError by const reference and is never mutated. -/
structure ExecutionContext where
  location : Option LocationToken
  host : HostId
deriving DecidableEq, Repr

/-- EmitError from diagnostic.cc: decode the context's location token, build
the DecodedDiagnostic from the decoded location and the message, deliver it
to the host reachable from the context, and return it. The heap threads the
state of the host contexts; only the context's own host is touched. -/
def EmitError (world : World) (exec_ctx : ExecutionContext) (message : String) :
    DecodedDiagnostic × World :=
  let decoded_loc := decode exec_ctx.location
  let diag : DecodedDiagnostic := { location := decoded_loc, message := message }
  let host := exec_ctx.host
  (diag, fun h => if h = host then (world host).EmitError diag else world h)

lemma empty_append (s : String) : "" ++ s = s := rfl

lemma append_empty (s : String) : s ++ "" = s := by
  cases s with
  | mk data => show String.mk (data ++ []) = String.mk data; rw [List.append_nil]

/-- C1: EmitError returns a DecodedDiagnostic whose message equals the given
message and whose location is the result of decoding the context's location
token; when the token is absent the location is none, and when decoding
yields a triple (f, l, c) the diagnostic formats as "f:l:c: m". -/
theorem C1_emit_error_message_and_location (world : World) (ctx : ExecutionContext)
    (m : String) :
    (EmitError world ctx m).1.message = m ∧
    (EmitError world ctx m).1.location = decode ctx.location ∧
    (ctx.location = none → (EmitError world ctx m).1.location = none) ∧
    (∀ f l c, decode ctx.location = some { filename := f, line := l, column := c } →
      format (EmitError world ctx m).1 =
        f ++ ":" ++ toString l ++ ":" ++ toString c ++ ": " ++ m) := by
  refine ⟨rfl, rfl, ?_, ?_⟩
  · intro h
    simp [EmitError, h, decode]
  · intro f l c h
    simp [EmitError, format, streamDiag, h, empty_append]

/-- C1 witness: at a context whose token resolves to ("f.cc", 3, 1), the
emitted diagnostic formats as "f.cc:3:1: oops". -/
theorem C1_witness :
    format (EmitError (fun _ => { sink := some [] })
      { location := some { resolved := some { filename := "f.cc", line := 3, column := 1 } },
        host := 0 } "oops").1 = "f.cc" ++ ":" ++ toString 3 ++ ":" ++ toString 1 ++ ": " ++ "oops" :=
  (C1_emit_error_message_and_location (fun _ => { sink := some [] })
    { location := some { resolved := some { filename := "f.cc", line := 3, column := 1 } },
      host := 0 } "oops").2.2.2 "f.cc" 3 1 rfl

/-- C2: format renders a diagnostic with a present location as
"filename:line:column: message" and a diagnostic with an absent location as
"UnknownLocation: message", including on the spec's two concrete examples. -/
theorem C2_format_rendering :
    (∀ loc msg, format { location := some loc, message := msg } =
      loc.filename ++ ":" ++ toString loc.line ++ ":" ++ toString loc.column ++ ": " ++ msg) ∧
    (∀ msg, format { location := none, message := msg } = "UnknownLocation: " ++ msg) ∧
    format { location := some { filename := "a.cc", line := 10, column := 5 }, message := "bad thing" } = "a.cc:10:5: bad thing" ∧
    format { location := none, message := "bad thing" } = "UnknownLocation: bad thing" := by
  refine ⟨?_, ?_, by decide, by decide⟩
  · intro loc msg
    simp [format, streamDiag, empty_append]
  · intro msg
    simp [format, streamDiag, empty_append]

/-- C3: when a sink is reachable from the context's host, one call to
EmitError delivers exactly one diagnostic to it, appending exactly the
returned diagnostic to what the sink had received. -/
theorem C3_single_delivery (world : World) (ctx : ExecutionContext) (m : String)
    (received : List DecodedDiagnostic)
    (hs : (world ctx.host).sink = some received) :
    ((EmitError world ctx m).2 ctx.host).sink =
      some (received ++ [(EmitError world ctx m).1]) := by
  simp [EmitError, HostContext.EmitError, hs]

/-- C3 witness: with an empty registered sink, one call delivers exactly the
returned diagnostic. -/
theorem C3_witness :
    ((EmitError (fun _ => { sink := some [] }) { location := none, host := 0 } "oops").2 0).sink =
      some ([] ++ [(EmitError (fun _ => { sink := some [] })
        { location := none, host := 0 } "oops").1]) :=
  C3_single_delivery (fun _ => { sink := some [] }) { location := none, host := 0 } "oops" [] rfl

/-- C4: decode is total and never fails: an absent token decodes to none, an
unresolvable token degrades to none, and the emitted diagnostic's location
is none exactly when the token was absent or failed to decode. -/
theorem C4_decode_never_fails :
    decode none = none ∧
    (∀ t : LocationToken, t.resolved = none → decode (some t) = none) ∧
    (∀ (world : World) (ctx : ExecutionContext) (m : String),
      (EmitError world ctx m).1.location = none ↔
        (ctx.location = none ∨ ∃ t, ctx.location = some t ∧ t.resolved = none)) := by
  refine ⟨rfl, ?_, ?_⟩
  · intro t h
    simpa [decode] using h
  · intro world ctx m
    show decode ctx.location = none ↔ _
    cases hl : ctx.location with
    | none => simp [decode]
    | some t => simp [decode]

/-- C4 witness: a token that fails to resolve decodes to none. -/
theorem C4_witness : decode (some { resolved := none }) = none :=
  C4_decode_never_fails.2.1 { resolved := none } rfl

/-- C5: decode is a pure, deterministic function of the token: a token
resolving to (f, l, c) decodes to exactly that triple, and two decodes of
the same token give equal results. -/
theorem C5_decode_pure_deterministic :
    (∀ (t : LocationToken) (f : String) (l c : Nat),
      t.resolved = some { filename := f, line := l, column := c } →
      decode (some t) = some { filename := f, line := l, column := c }) ∧
    (∀ o : Option LocationToken, decode o = decode o) :=
  ⟨fun _ _ _ _ h => h, fun _ => rfl⟩

/-- C5 witness: a concrete resolvable token decodes to its triple. -/
theorem C5_witness :
    decode (some { resolved := some { filename := "f.cc", line := 3, column := 1 } }) =
      some { filename := "f.cc", line := 3, column := 1 } :=
  C5_decode_pure_deterministic.1
    { resolved := some { filename := "f.cc", line := 3, column := 1 } } "f.cc" 3 1 rfl

/-- C6: constructing a DecodedDiagnostic from an error value yields a message
equal to the error's textual description and an absent location. -/
theorem C6_ofError (e : Error) :
    (DecodedDiagnostic.ofError e).message = StrCat e ∧
    (DecodedDiagnostic.ofError e).location = none :=
  ⟨rfl, rfl⟩

/-- C7: when the sink reachable from the context is unset, EmitError still
completes and returns the constructed diagnostic, and the heap of host
states is left unchanged; no error is propagated to the caller. -/
theorem C7_sink_unset_tolerated (world : World) (ctx : ExecutionContext) (m : String)
    (hs : (world ctx.host).sink = none) :
    (EmitError world ctx m).1 = { location := decode ctx.location, message := m } ∧
    (∀ h, (EmitError world ctx m).2 h = world h) := by
  refine ⟨rfl, ?_⟩
  intro h
  by_cases hh : h = ctx.host
  · subst hh
    simp [EmitError, HostContext.EmitError, hs]
    rw [← hs]
  · simp [EmitError, hh]

/-- C7 witness: at a host with no sink, the call returns the constructed
diagnostic and leaves the host heap unchanged. -/
theorem C7_witness :
    (EmitError (fun _ => { sink := none }) { location := none, host := 0 } "oops").1 =
      { location := decode none, message := "oops" } ∧
    (∀ h, (EmitError (fun _ => { sink := none })
      { location := none, host := 0 } "oops").2 h = (fun _ => ({ sink := none } : HostContext)) h) :=
  C7_sink_unset_tolerated (fun _ => { sink := none }) { location := none, host := 0 } "oops" rfl

/-- C9: an empty message is not special-cased: format still produces the full
prefix and separator with nothing after it, for both absent and present
locations. -/
theorem C9_empty_message_formats :
    format { location := none, message := "" } = "UnknownLocation: " ∧
    (∀ f l c, format { location := some { filename := f, line := l, column := c }, message := "" } = f ++ ":" ++ toString l ++ ":" ++ toString c ++ ": ") := by
  refine ⟨by decide, ?_⟩
  intro f l c
  simp [format, streamDiag, empty_append, append_empty]

/-- C10: EmitError is given the context by const reference and never mutates
it; on the heap of host states it changes nothing except the host reachable
from the context, and that host only by the single delivery of the returned
diagnostic. -/
theorem C10_frame (world : World) (ctx : ExecutionContext) (m : String) :
    (∀ h, h ≠ ctx.host → (EmitError world ctx m).2 h = world h) ∧
    (EmitError world ctx m).2 ctx.host =
      (world ctx.host).EmitError (EmitError world ctx m).1 := by
  refine ⟨?_, ?_⟩
  · intro h hh
    simp [EmitError, hh]
  · simp [EmitError]

/-- C10 witness: a host other than the context's is untouched by the call. -/
theorem C10_witness :
    (EmitError (fun _ => { sink := some [] }) { location := none, host := 0 } "oops").2 1 =
      (fun _ => ({ sink := some [] } : HostContext)) 1 :=
  (C10_frame (fun _ => { sink := some [] }) { location := none, host := 0 } "oops").1 1
    (by decide)

end Tfrt
